import Mathlib

/-!
Verification development for `simplemongo`, a small ORM-style wrapper over a
document database. The model below shallowly embeds the parts of
`simplemongo/models.py` that carry the change-tracking and lifecycle logic of
the `Document` class, together with the pieces of the repository that
`models.py` imports (`dstruct.diff_dicts`, the validation rules, the error
taxonomy), which are not among the sources and are therefore modelled from the
specification where noted.

Conventions of the embedding:
* Python dictionaries are association lists `Dict := List (Key × Value)`;
  real Python dicts never hold a duplicate key, and all operations below
  preserve that, but no theorem relies on it unless stated.
* `None` on the Python side becomes `Option.none` (for the snapshot slot) or
  `Value.vNull` (for a null stored inside a document).
* Python exceptions become an explicit `Err` sum; methods that can raise
  return `Except Err _`.
* Calls into the storage collaborator (`col.save`, `col.update`,
  `col.remove`) are not interpreted; each method also returns the list of
  storage operations it submitted, so "no write was submitted" is the
  empty list.
* `ObjectId()` generation is modelled by an externally supplied fresh tag
  (`fresh : Nat`): the model is deterministic given that tag.
-/

namespace Simplemongo

/-- Values stored in a document.  `vBool` is kept distinct from `vInt`, but
`isInt` below treats it as an integer, because Python's `bool` is a subclass of
`int` and `isinstance(True, int)` holds. -/
inductive Value where
  | vInt (n : Int)
  | vStr (s : String)
  | vBool (b : Bool)
  | vNull
  | vOid (tag : Nat)
  deriving DecidableEq, Repr

abbrev Key := String

/-- A Python dict, as an association list (keys unique in any dict built by
the operations below). -/
abbrev Dict := List (Key × Value)

/-- `d[k]` lookup: first entry with the given key. -/
def dictLookup : Dict → Key → Option Value
  | [], _ => none
  | (k', v') :: rest, k => if k' = k then some v' else dictLookup rest k

/-- `k in d` containment test. -/
def dictHasKey (d : Dict) (k : Key) : Bool :=
  (dictLookup d k).isSome

/-- `d.keys()`. -/
def dictKeys (d : Dict) : List Key :=
  d.map Prod.fst

/-- `d[k] = v`: replace the value in place if the key exists, else append. -/
def dictSet : Dict → Key → Value → Dict
  | [], k, v => [(k, v)]
  | (k', v') :: rest, k, v =>
      if k' = k then (k, v) :: rest else (k', v') :: dictSet rest k v

/-- `d.update(other)`: adopt every entry of `other` in order. -/
def dictUpdate (d other : Dict) : Dict :=
  other.foldl (fun acc kv => dictSet acc kv.1 kv.2) d

/-- `isinstance(v, int)` — true for Python ints and bools alike. -/
def isInt : Value → Bool
  | .vInt _ => true
  | .vBool _ => true
  | _ => false

/-- The integer a value denotes in Python arithmetic (`True` is 1,
`False` is 0); only ever applied to values with `isInt v = true`. -/
def intVal : Value → Int
  | .vInt n => n
  | .vBool b => if b then 1 else 0
  | _ => 0

/-- The added/changed/removed triple produced by `diff_dicts`. -/
structure DictDiff where
  added : Dict
  changed : Dict
  removed : List Key
  deriving DecidableEq, Repr

/-- Modelled from the spec: `diff_dicts` lives in `simplemongo/dstruct.py`,
which is not among the sources.  Per §4.1 of the spec it is the pure structural
diff: `added` holds the keys of `current` absent from `baseline` with
`current`'s values, `changed` the keys present in both whose values differ by
equality with `current`'s values, and `removed` the keys of `baseline` absent
from `current`.  `models.py` reads these three parts as `diff['+']`,
`diff['~']` and `diff['-']`. -/
def diff_dicts (current baseline : Dict) : DictDiff where
  added := current.filter fun kv => !(dictHasKey baseline kv.1)
  changed := current.filter fun kv =>
    match dictLookup baseline kv.1 with
    | some old => if old = kv.2 then false else true
    | none => false
  removed := (dictKeys baseline).filter fun k => !(dictHasKey current k)

/-- The update-instruction dictionary built by `Document.changes`: the
`'$set'`, `'$inc'` and `'$unset'` entries of the Python dict `c`; an empty
component stands for the key being absent from `c`. -/
structure Changes where
  set : Dict
  inc : Dict
  unset : List Key
  deriving DecidableEq, Repr

/-- Python truthiness of the dict `c` built by `changes`: `if c:` fails
exactly when all three components are missing. -/
def Changes.isEmpty (c : Changes) : Bool :=
  c.set.isEmpty && c.inc.isEmpty && c.unset.isEmpty

/-- One iteration of the `for i in diff['~']:` loop in `Document.changes`
(models.py lines 203–209): if `self[i]` and `self._raw[i]` are both integers
the difference goes into `'$inc'`, otherwise the current value goes into
`'$set'`. -/
def incStep (content raw : Dict) (c : Changes) (i : Key) : Changes :=
  match dictLookup content i, dictLookup raw i with
  | some new, some old =>
      if isInt new && isInt old then
        { c with inc := dictSet c.inc i (Value.vInt (intVal new - intVal old)) }
      else
        { c with set := dictSet c.set i new }
  | _, _ => c

/-- The body of `Document.changes` after the `if not self._raw` guard
(models.py lines 194–215): `c['$set'] = diff['+']`, then the loop over
`diff['~']`, then `c['$unset'] = diff['-']`. -/
def computeChanges (content raw : Dict) : Changes :=
  let diff := diff_dicts content raw
  let c0 : Changes := { set := diff.added, inc := [], unset := [] }
  let c1 := (dictKeys diff.changed).foldl (incStep content raw) c0
  { c1 with unset := diff.removed }

/-- Modelled from the spec: the exception taxonomy of `simplemongo/errors.py`,
which is not among the sources; §7 of the spec lists the distinct conditions,
and `models.py` raises `StructError`, `SimplemongoException`,
`MultipleObjectsReturned` and `ObjectNotFound` from that module.  Python's
built-in `AssertionError`, `KeyError` and `ValueError` are included because
`models.py` can raise them. -/
inductive Err where
  | structError (offending : List Key)
  | assertionError (msg : String)
  | keyError (k : Key)
  | valueError (msg : String)
  | simplemongoException (msg : String)
  | objectNotFound (msg : String)
  | multipleObjectsReturned (msg : String)
  deriving DecidableEq, Repr

/-- Base value types nameable in a schema declaration. -/
inductive BaseType where
  | tInt
  | tStr
  | tBool
  | tNone
  | tOid
  deriving DecidableEq, Repr

/-- Declared value type of a schema field: a single type, a tuple of
acceptable types, or no constraint. -/
inductive FieldType where
  | one (t : BaseType)
  | anyOf (ts : List BaseType)
  | unconstrained
  deriving DecidableEq, Repr

def matchesBase : BaseType → Value → Bool
  | .tInt, .vInt _ => true
  | .tStr, .vStr _ => true
  | .tBool, .vBool _ => true
  | .tNone, .vNull => true
  | .tOid, .vOid _ => true
  | _, _ => false

/-- A value is an instance of the declared field type; `None` matches only
when null is itself a declared acceptable type. -/
def matchesType : FieldType → Value → Bool
  | .one t, v => matchesBase t v
  | .anyOf ts, v => ts.any fun t => matchesBase t v
  | .unconstrained, _ => true

/-- Modelled from the spec: the per-field validation rule of
`dstruct.StructuredDict.validate`, absent from the sources.  §4.2 of the spec:
an absent field fails iff it is required; a present field fails iff it is
strict and its value is not an instance of the declared type (`None` counting
as an instance only when null is a declared acceptable type). -/
def fieldOk (required strict : Bool) (ty : FieldType) : Option Value → Bool
  | none => !required
  | some v => !strict || matchesType ty v

/-- Per-type declaration data of a `Document` subclass: the schema
(`struct`, `required_fields`, `strict_fields` from `dstruct`) and the class
attributes `__validate__` and `__write_concern__` of `models.Document`. -/
structure DocClass where
  struct : List (Key × FieldType)
  required_fields : List Key
  strict_fields : List Key
  validateFlag : Bool
  write_concern : Dict
  deriving DecidableEq, Repr

/-- The class attribute defaults of `models.Document`:
`__validate__ = True`, `__write_concern__ = {'w': 1, 'j': False}`. -/
def DocClass.defaults (struct : List (Key × FieldType))
    (required_fields strict_fields : List Key) : DocClass where
  struct := struct
  required_fields := required_fields
  strict_fields := strict_fields
  validateFlag := true
  write_concern := [("w", .vInt 1), ("j", .vBool false)]

/-- Modelled from the spec: the aggregated violation list computed by
`validate()` — every declared field failing its §4.2 row, reported in one
pass. -/
def DocClass.violations (cls : DocClass) (content : Dict) : List Key :=
  cls.struct.filterMap fun ft =>
    if fieldOk (cls.required_fields.contains ft.1) (cls.strict_fields.contains ft.1)
        ft.2 (dictLookup content ft.1)
    then none else some ft.1

/-- Modelled from the spec: `validate()` raises one structural error naming
all offending fields, or succeeds. -/
def DocClass.validate (cls : DocClass) (content : Dict) : Except Err Unit :=
  let vs := cls.violations content
  if vs.isEmpty then .ok () else .error (.structError vs)

/-- `Document._get_write_options`: class write concern updated with the
per-call keyword arguments. -/
def DocClass.getWriteOptions (cls : DocClass) (kwgs : Dict) : Dict :=
  dictUpdate cls.write_concern kwgs

/-- A storage operation submitted to the pymongo collection. -/
inductive StorageOp where
  | save (content : Dict) (options : Dict)
  | update (filter : Dict) (spec : Changes) (options : Dict)
  | remove (id : Value) (options : Dict)
  deriving DecidableEq, Repr

/-- Instance state of `models.Document`: the live dict content (it *is* a
dict subclass), the snapshot `self._raw` (`none` = Python `None`), the
`self._in_db` flag, and the `self._history` slot written by `remove`. -/
structure Document where
  content : Dict
  _raw : Option Dict
  _in_db : Bool
  _history : Option Dict
  deriving DecidableEq, Repr

/-- `Document.identifier`: the one-field filter `{'_id': self['_id']}`;
`none` models the `KeyError` when no `_id` is present. -/
def Document.identifier (d : Document) : Option Dict :=
  (dictLookup d.content "_id").map fun i => [("_id", i)]

/-- `Document.changes` (models.py lines 190–215).  `if not self._raw:` is a
truthiness test, so both a missing snapshot and an empty snapshot yield
`None`; otherwise the diff against the snapshot is mapped to the instruction
dict. -/
def Document.changes (d : Document) : Option Changes :=
  match d._raw with
  | none => none
  | some raw => if raw.isEmpty then none else some (computeChanges d.content raw)

/-- `Document.save` (models.py lines 156–171): validate when `__validate__`
is on; generate an `_id` if none is set; capture the snapshot from the
current content if none exists; submit the full content through `col.save`
(an upsert-style write, with `manipulate=True` added to the write options);
set `_in_db`; return the identifier the write reports (pymongo's
`Collection.save` returns the `_id` of the saved document).  The second
component lists the storage operations submitted; a validation failure
submits none. -/
def Document.save (cls : DocClass) (d : Document) (fresh : Nat) :
    Except Err (Document × Value) × List StorageOp :=
  let vs := cls.violations d.content
  if cls.validateFlag && !vs.isEmpty then
    (.error (.structError vs), [])
  else
    let d1 :=
      if dictHasKey d.content "_id" then d
      else { d with content := dictSet d.content "_id" (.vOid fresh) }
    let d2 :=
      match d1._raw with
      | none => { d1 with _raw := some d1.content }
      | some _ => d1
    let rv := (dictLookup d2.content "_id").getD .vNull
    (.ok ({ d2 with _in_db := true }, rv),
     [StorageOp.save d2.content (cls.getWriteOptions [("manipulate", .vBool true)])])

/-- `Document.remove` (models.py lines 173–180): asserts `self._in_db`
(an `AssertionError` otherwise, nothing submitted); stores a copy of the
content in `self._history`; deletes by `self['_id']` (a `KeyError` if absent,
nothing submitted); clears the content and resets `_in_db`. -/
def Document.remove (cls : DocClass) (d : Document) :
    Except Err Document × List StorageOp :=
  if !d._in_db then
    (.error (.assertionError "Could not remove document which is not in database"), [])
  else
    match dictLookup d.content "_id" with
    | none => (.error (.keyError "_id"), [])
    | some i =>
        (.ok { d with _history := some d.content, content := [], _in_db := false },
         [StorageOp.remove i (cls.getWriteOptions [])])

/-- `Document.update_self` (models.py lines 182–188): submit an arbitrary
partial update scoped by `self.identifier`, forcing `multi` to `False` in the
write options.  The instance itself is untouched. -/
def Document.update_self (cls : DocClass) (d : Document) (spec : Changes)
    (kwargs : Dict) : Except Err Document × List StorageOp :=
  match d.identifier with
  | none => (.error (.keyError "_id"), [])
  | some filt =>
      let options := dictSet (cls.getWriteOptions kwargs) "multi" (.vBool false)
      (.ok d, [StorageOp.update filt spec options])

/-- `Document.update_changes` (models.py lines 217–223): compute `changes`
and, when truthy (neither `None` nor empty), submit it through
`update_self`; otherwise a no-op. -/
def Document.update_changes (cls : DocClass) (d : Document) :
    Except Err Document × List StorageOp :=
  match d.changes with
  | some c => if !c.isEmpty then Document.update_self cls d c [] else (.ok d, [])
  | none => (.ok d, [])

/-- `Document.pull` (models.py lines 225–234): query storage with
`self.identifier` (the collaborator `queryOne` stands for the cursor built on
that filter); if nothing comes back, raise the dedicated
`SimplemongoException`; otherwise `self.clear(); self.update(doc)` replaces
the content with the freshly read record.  `self._raw` is not touched. -/
def Document.pull (queryOne : Dict → Option Dict) (d : Document) :
    Except Err Document :=
  match d.identifier with
  | none => .error (.keyError "_id")
  | some filt =>
      match queryOne filt with
      | none => .error (.simplemongoException "Document was deleted before `pull` was called")
      | some doc => .ok { d with content := doc }

/-- Modelled from the spec: `dstruct.StructuredDict.build_instance`, absent
from the sources; per §4.4's detached construction path it wraps the caller's
data into an instance with no snapshot and `inDatabase` false. -/
def build_instance (kwargs : Dict) : Document where
  content := kwargs
  _raw := none
  _in_db := false
  _history := none

/-- `Document.new` (models.py lines 240–249): generate an `_id` only when
the keyword arguments do not already carry one, then build a detached
instance. -/
def Document.new (kwargs : Dict) (fresh : Nat) : Document :=
  let kwargs' :=
    if dictHasKey kwargs "_id" then kwargs
    else dictSet kwargs "_id" (.vOid fresh)
  build_instance kwargs'

/-!
## Reference-aliasing model

The snapshot-isolation claim is about Python object identity: which dict
*object* `self._raw` and the live content are bound to, and what in-place
mutation of either object can reach.  The pure model above cannot express
that, so the two snapshot-assignment sites are replayed here over an explicit
heap of dict objects: a `Ref` names one Python dict object, a `Heap` gives
each object's current entries, and in-place mutation is `heapWrite`.
-/

abbrev Ref := Nat

abbrev Heap := Ref → Dict

/-- In-place mutation of one dict object (e.g. `raw['a'] = 99` or
`raw.clear()` followed by refilling). -/
def heapWrite (h : Heap) (r : Ref) (dd : Dict) : Heap :=
  fun r' => if r' = r then dd else h r'

/-- A `Document` seen at the object level: which dict object holds the live
content, and which (if any) the snapshot is bound to. -/
structure HDocument where
  contentRef : Ref
  rawRef : Option Ref
  in_db : Bool
  deriving DecidableEq, Repr

/-- The entries the snapshot currently reads. -/
def hSnapshot (h : Heap) (d : HDocument) : Option Dict :=
  d.rawRef.map h

/-- The entries the live content currently reads. -/
def hContent (h : Heap) (d : HDocument) : Dict :=
  h d.contentRef

/-- `Document.__init__` with `from_db=True` (models.py lines 122–125), at the
object level: `super().__init__(copy.deepcopy(raw))` fills a fresh object
(`fresh`) with a copy of the received object's entries, and `self._raw = raw`
binds the snapshot to the received object itself. -/
def hInitLoaded (h : Heap) (rawRef : Ref) (fresh : Ref) : Heap × HDocument :=
  (heapWrite h fresh (h rawRef),
   { contentRef := fresh, rawRef := some rawRef, in_db := true })

/-- The first-save snapshot capture in `Document.save` (models.py lines
165–166), at the object level: when `self._raw is None`, bind it to a fresh
object (`fresh`) filled with a copy of the current content. -/
def hSnapshotCapture (h : Heap) (d : HDocument) (fresh : Ref) : Heap × HDocument :=
  match d.rawRef with
  | none => (heapWrite h fresh (h d.contentRef), { d with rawRef := some fresh })
  | some _ => (h, d)

/-!
## Lemmas about the dictionary operations
-/

theorem dictLookup_dictSet_self (d : Dict) (k : Key) (v : Value) :
    dictLookup (dictSet d k v) k = some v := by
  induction d with
  | nil => simp [dictSet, dictLookup]
  | cons kv rest ih =>
      obtain ⟨k', v'⟩ := kv
      by_cases h : k' = k
      · simp [dictSet, h, dictLookup]
      · simp [dictSet, h, dictLookup, ih]

theorem dictLookup_dictSet_ne (d : Dict) (k k' : Key) (v : Value) (h : k' ≠ k) :
    dictLookup (dictSet d k' v) k = dictLookup d k := by
  induction d with
  | nil => simp [dictSet, dictLookup, h]
  | cons kv rest ih =>
      obtain ⟨k₀, v₀⟩ := kv
      by_cases h₀ : k₀ = k'
      · subst h₀
        simp [dictSet, dictLookup, h]
      · simp only [dictSet, if_neg h₀]
        by_cases h₁ : k₀ = k
        · simp [dictLookup, h₁]
        · simp [dictLookup, h₁, ih]

theorem mem_of_dictLookup (d : Dict) (k : Key) (v : Value)
    (h : dictLookup d k = some v) : (k, v) ∈ d := by
  induction d with
  | nil => simp [dictLookup] at h
  | cons kv rest ih =>
      obtain ⟨k', v'⟩ := kv
      by_cases h' : k' = k
      · subst h'
        simp [dictLookup] at h
        subst h
        exact List.mem_cons_self _ _
      · simp [dictLookup, h'] at h
        exact List.mem_cons_of_mem _ (ih h)

theorem dictLookup_isSome_of_mem (d : Dict) (k : Key) (v : Value)
    (h : (k, v) ∈ d) : (dictLookup d k).isSome := by
  induction d with
  | nil => simp at h
  | cons kv rest ih =>
      obtain ⟨k', v'⟩ := kv
      by_cases h' : k' = k
      · simp [dictLookup, h']
      · rcases List.mem_cons.mp h with h₀ | h₀
        · cases h₀
          simp at h'
        · simp [dictLookup, h', ih h₀]

theorem dictLookup_filter_eq_none (d : Dict) (p : Key × Value → Bool) (k : Key)
    (hp : ∀ v, p (k, v) = false) : dictLookup (d.filter p) k = none := by
  induction d with
  | nil => simp [dictLookup]
  | cons kv rest ih =>
      obtain ⟨k', v'⟩ := kv
      by_cases hk : k' = k
      · subst hk
        simp [List.filter, hp v', ih]
      · by_cases hpv : p (k', v') = true
        · simp [List.filter, hpv, dictLookup, hk, ih]
        · simp only [List.filter, hpv]
          exact ih

theorem ne_nil_of_dictLookup (d : Dict) (k : Key) (v : Value)
    (h : dictLookup d k = some v) : d.isEmpty = false := by
  cases d with
  | nil => simp [dictLookup] at h
  | cons kv rest => simp [List.isEmpty]

/-!
## Lemmas about `diff_dicts` and the `changes` fold
-/

/-- Every key reported as changed has a value in the baseline. -/
theorem lookup_raw_isSome_of_mem_changed (content raw : Dict) (k : Key)
    (h : k ∈ dictKeys (diff_dicts content raw).changed) :
    (dictLookup raw k).isSome := by
  simp only [dictKeys, List.mem_map] at h
  obtain ⟨kv, hkv, hfst⟩ := h
  simp only [diff_dicts, List.mem_filter] at hkv
  obtain ⟨-, hpred⟩ := hkv
  subst hfst
  cases hraw : dictLookup raw kv.1 with
  | none => simp [hraw] at hpred
  | some old => simp

/-- A key whose values exist on both sides and differ is reported as
changed. -/
theorem mem_changed_of_lookup (content raw : Dict) (k : Key) (v old : Value)
    (hc : dictLookup content k = some v) (hr : dictLookup raw k = some old)
    (hne : v ≠ old) : k ∈ dictKeys (diff_dicts content raw).changed := by
  have hmem : (k, v) ∈ content := mem_of_dictLookup content k v hc
  have hpred : (k, v) ∈ (diff_dicts content raw).changed := by
    simp only [diff_dicts, List.mem_filter]
    refine ⟨hmem, ?_⟩
    simp [hr, Ne.symm hne]
  simp only [dictKeys, List.mem_map]
  exact ⟨(k, v), hpred, rfl⟩

/-- A key found among the additions is absent from the baseline. -/
theorem lookup_raw_eq_none_of_added (content raw : Dict) (k : Key) (v : Value)
    (h : dictLookup (diff_dicts content raw).added k = some v) :
    dictLookup raw k = none := by
  have hmem : (k, v) ∈ (diff_dicts content raw).added := by
    exact mem_of_dictLookup _ k v h
  simp only [diff_dicts, List.mem_filter] at hmem
  obtain ⟨-, hpred⟩ := hmem
  cases hx : dictLookup raw k with
  | none => rfl
  | some w => simp [dictHasKey, hx] at hpred

/-- A key with a value in the baseline is never among the additions. -/
theorem lookup_added_eq_none (content raw : Dict) (k : Key)
    (h : (dictLookup raw k).isSome) :
    dictLookup (diff_dicts content raw).added k = none := by
  apply dictLookup_filter_eq_none
  intro v
  simp [dictHasKey, h]

/-- `incStep` at a key leaves the `'$set'` entry of any other key alone. -/
theorem incStep_set_ne (content raw : Dict) (c : Changes) (i k : Key) (h : i ≠ k) :
    dictLookup (incStep content raw c i).set k = dictLookup c.set k := by
  unfold incStep
  split
  · split
    · rfl
    · exact dictLookup_dictSet_ne _ _ _ _ h
  · rfl

/-- `incStep` at a key leaves the `'$inc'` entry of any other key alone. -/
theorem incStep_inc_ne (content raw : Dict) (c : Changes) (i k : Key) (h : i ≠ k) :
    dictLookup (incStep content raw c i).inc k = dictLookup c.inc k := by
  unfold incStep
  split
  · split
    · exact dictLookup_dictSet_ne _ _ _ _ h
    · rfl
  · rfl

/-- `incStep` never touches `'$unset'`. -/
theorem incStep_unset (content raw : Dict) (c : Changes) (i : Key) :
    (incStep content raw c i).unset = c.unset := by
  unfold incStep
  split
  · split <;> rfl
  · rfl

/-- `incStep` at a key whose two values are both plain integers records their
difference under `'$inc'`. -/
theorem incStep_self_bothint (content raw : Dict) (c : Changes) (k : Key)
    (v old : Value) (hc : dictLookup content k = some v)
    (hr : dictLookup raw k = some old) (hi : (isInt v && isInt old) = true) :
    incStep content raw c k =
      { c with inc := dictSet c.inc k (.vInt (intVal v - intVal old)) } := by
  unfold incStep
  rw [hc, hr]
  simp [hi]

/-- `incStep` at a key whose two values are not both integers records the
current value under `'$set'`. -/
theorem incStep_self_nonint (content raw : Dict) (c : Changes) (k : Key)
    (v old : Value) (hc : dictLookup content k = some v)
    (hr : dictLookup raw k = some old) (hni : (isInt v && isInt old) = false) :
    incStep content raw c k = { c with set := dictSet c.set k v } := by
  unfold incStep
  rw [hc, hr]
  simp [hni]

/-- The fold over the changed keys never touches the entries of a key no
changed key equals. -/
theorem foldl_incStep_set_preserved (content raw : Dict) (k : Key) :
    ∀ (ks : List Key) (c : Changes), (∀ k' ∈ ks, k' ≠ k) →
      dictLookup (ks.foldl (incStep content raw) c).set k = dictLookup c.set k := by
  intro ks
  induction ks with
  | nil => intro c _; rfl
  | cons k' ks ih =>
      intro c hks
      rw [List.foldl_cons, ih _ fun k₀ hk₀ => hks k₀ (List.mem_cons_of_mem _ hk₀)]
      exact incStep_set_ne _ _ _ _ _ (hks k' (List.mem_cons_self _ _))

/-- Likewise for the `'$inc'` entry. -/
theorem foldl_incStep_inc_preserved (content raw : Dict) (k : Key) :
    ∀ (ks : List Key) (c : Changes), (∀ k' ∈ ks, k' ≠ k) →
      dictLookup (ks.foldl (incStep content raw) c).inc k = dictLookup c.inc k := by
  intro ks
  induction ks with
  | nil => intro c _; rfl
  | cons k' ks ih =>
      intro c hks
      rw [List.foldl_cons, ih _ fun k₀ hk₀ => hks k₀ (List.mem_cons_of_mem _ hk₀)]
      exact incStep_inc_ne _ _ _ _ _ (hks k' (List.mem_cons_self _ _))

/-- A changed key whose values are not both integers ends up in `'$set'`
with the current value. -/
theorem foldl_incStep_set_written (content raw : Dict) (k : Key) (v old : Value)
    (hc : dictLookup content k = some v) (hr : dictLookup raw k = some old)
    (hni : (isInt v && isInt old) = false) :
    ∀ (ks : List Key) (c : Changes), (k ∈ ks ∨ dictLookup c.set k = some v) →
      dictLookup (ks.foldl (incStep content raw) c).set k = some v := by
  intro ks
  induction ks with
  | nil =>
      intro c hdisj
      rcases hdisj with h | h
      · simp at h
      · exact h
  | cons k' ks ih =>
      intro c hdisj
      rw [List.foldl_cons]
      apply ih
      by_cases hk : k' = k
      · subst hk
        right
        rw [incStep_self_nonint content raw c k' v old hc hr hni]
        exact dictLookup_dictSet_self _ _ _
      · rcases hdisj with h | h
        · rcases List.mem_cons.mp h with h₀ | h₀
          · exact absurd h₀.symm hk
          · exact Or.inl h₀
        · right
          rw [incStep_set_ne _ _ _ _ _ hk]
          exact h

/-- A changed key whose values are both instances of int (booleans included,
as with `isinstance(_, int)`) ends up in `'$inc'` with the numeric
difference of the two. -/
theorem foldl_incStep_inc_written (content raw : Dict) (k : Key) (v old : Value)
    (hc : dictLookup content k = some v) (hr : dictLookup raw k = some old)
    (hi : (isInt v && isInt old) = true) :
    ∀ (ks : List Key) (c : Changes),
      (k ∈ ks ∨ dictLookup c.inc k = some (.vInt (intVal v - intVal old))) →
      dictLookup (ks.foldl (incStep content raw) c).inc k =
        some (.vInt (intVal v - intVal old)) := by
  intro ks
  induction ks with
  | nil =>
      intro c hdisj
      rcases hdisj with h | h
      · simp at h
      · exact h
  | cons k' ks ih =>
      intro c hdisj
      rw [List.foldl_cons]
      apply ih
      by_cases hk : k' = k
      · subst hk
        right
        rw [incStep_self_bothint content raw c k' v old hc hr hi]
        exact dictLookup_dictSet_self c.inc k' (.vInt (intVal v - intVal old))
      · rcases hdisj with h | h
        · rcases List.mem_cons.mp h with h₀ | h₀
          · exact absurd h₀.symm hk
          · exact Or.inl h₀
        · right
          rw [incStep_inc_ne _ _ _ _ _ hk]
          exact h

/-- A changed key whose values are both integers is never written to
`'$set'` by the fold. -/
theorem foldl_incStep_set_none (content raw : Dict) (k : Key) (v old : Value)
    (hc : dictLookup content k = some v) (hr : dictLookup raw k = some old)
    (hi : (isInt v && isInt old) = true) :
    ∀ (ks : List Key) (c : Changes), dictLookup c.set k = none →
      dictLookup (ks.foldl (incStep content raw) c).set k = none := by
  intro ks
  induction ks with
  | nil => intro c h; exact h
  | cons k' ks ih =>
      intro c h
      rw [List.foldl_cons]
      apply ih
      by_cases hk : k' = k
      · subst hk
        rw [incStep_self_bothint content raw c k' v old hc hr hi]
        exact h
      · rw [incStep_set_ne _ _ _ _ _ hk]
        exact h

/-- The fold never touches `'$unset'`. -/
theorem foldl_incStep_unset (content raw : Dict) :
    ∀ (ks : List Key) (c : Changes),
      (ks.foldl (incStep content raw) c).unset = c.unset := by
  intro ks
  induction ks with
  | nil => intro c; rfl
  | cons k' ks ih =>
      intro c
      rw [List.foldl_cons, ih, incStep_unset]

/-- An added key reaches the `'$set'` component of the instruction dict with
the current value. -/
theorem computeChanges_set_of_added (content raw : Dict) (k : Key) (v : Value)
    (h : dictLookup (diff_dicts content raw).added k = some v) :
    dictLookup (computeChanges content raw).set k = some v := by
  have hrawk : dictLookup raw k = none := lookup_raw_eq_none_of_added _ _ _ _ h
  have hks : ∀ k' ∈ dictKeys (diff_dicts content raw).changed, k' ≠ k := by
    intro k' hk' heq
    subst heq
    have hs := lookup_raw_isSome_of_mem_changed content raw k' hk'
    rw [hrawk] at hs
    simp at hs
  show dictLookup ((dictKeys (diff_dicts content raw).changed).foldl
    (incStep content raw) ⟨(diff_dicts content raw).added, [], []⟩).set k = some v
  rw [foldl_incStep_set_preserved content raw k _ _ hks]
  exact h

/-- A changed key whose values are not both integers reaches `'$set'` with
the current value. -/
theorem computeChanges_set_of_changed_nonint (content raw : Dict) (k : Key)
    (v old : Value) (hc : dictLookup content k = some v)
    (hr : dictLookup raw k = some old) (hne : v ≠ old)
    (hni : (isInt v && isInt old) = false) :
    dictLookup (computeChanges content raw).set k = some v := by
  have hk : k ∈ dictKeys (diff_dicts content raw).changed :=
    mem_changed_of_lookup content raw k v old hc hr hne
  show dictLookup ((dictKeys (diff_dicts content raw).changed).foldl
    (incStep content raw) ⟨(diff_dicts content raw).added, [], []⟩).set k = some v
  exact foldl_incStep_set_written content raw k v old hc hr hni _ _ (Or.inl hk)

/-- A changed key whose values are both instances of int reaches `'$inc'`
with the numeric difference. -/
theorem computeChanges_inc_of_changed_int (content raw : Dict) (k : Key)
    (v old : Value) (hc : dictLookup content k = some v)
    (hr : dictLookup raw k = some old) (hne : v ≠ old)
    (hi : (isInt v && isInt old) = true) :
    dictLookup (computeChanges content raw).inc k =
      some (.vInt (intVal v - intVal old)) := by
  have hk : k ∈ dictKeys (diff_dicts content raw).changed :=
    mem_changed_of_lookup content raw k v old hc hr hne
  show dictLookup ((dictKeys (diff_dicts content raw).changed).foldl
    (incStep content raw) ⟨(diff_dicts content raw).added, [], []⟩).inc k =
      some (.vInt (intVal v - intVal old))
  exact foldl_incStep_inc_written content raw k v old hc hr hi _ _ (Or.inl hk)

/-- A changed key whose values are both plain integers never reaches
`'$set'`. -/
theorem computeChanges_set_none_of_changed_int (content raw : Dict) (k : Key)
    (v old : Value) (hc : dictLookup content k = some v)
    (hr : dictLookup raw k = some old) (hi : (isInt v && isInt old) = true) :
    dictLookup (computeChanges content raw).set k = none := by
  have h0 : dictLookup (diff_dicts content raw).added k = none := by
    apply lookup_added_eq_none
    rw [hr]
    rfl
  show dictLookup ((dictKeys (diff_dicts content raw).changed).foldl
    (incStep content raw) ⟨(diff_dicts content raw).added, [], []⟩).set k = none
  exact foldl_incStep_set_none content raw k v old hc hr hi _ _ h0

/-- The `'$unset'` component is exactly the removed-key list of the diff. -/
theorem computeChanges_unset (content raw : Dict) :
    (computeChanges content raw).unset = (diff_dicts content raw).removed := rfl

/-- With a truthy (non-empty) snapshot, `changes` is the computed
instruction dict. -/
theorem changes_eq (d : Document) (raw : Dict) (h : d._raw = some raw)
    (hne : raw.isEmpty = false) :
    d.changes = some (computeChanges d.content raw) := by
  unfold Document.changes
  rw [h]
  simp [hne]

/-!
## The claims
-/

/-- Claim C1 is refuted at this input: the document has a snapshot (the empty
dict, as a `Document({}, from_db=True)` instance acquires), and the key `"a"`
was added since that snapshot, so the claim requires a `'$set'` instruction
carrying it — but `changes` yields no instruction set at all, because
`if not self._raw:` tests truthiness and an empty snapshot is falsy. -/
theorem C1_counterexample :
    (Document._raw ⟨[("a", .vInt 1)], some [], true, none⟩ = some []) ∧
    dictLookup (diff_dicts [("a", Value.vInt 1)] []).added "a" = some (.vInt 1) ∧
    Document.changes ⟨[("a", .vInt 1)], some [], true, none⟩ = none := by
  decide

/-- Claim C1 (amended): `changes` yields no instruction set both when no
snapshot exists and when the snapshot is the empty dict (the guard is a
truthiness test); for a document with a non-empty snapshot it maps the
structural diff to the instruction dict: keys added since the snapshot and
changed keys whose values are not both integers appear under `'$set'` with
the current values, and removed keys make up the `'$unset'` list. -/
theorem C1_changes_mapping (d : Document) :
    (d._raw = none → d.changes = none) ∧
    (d._raw = some [] → d.changes = none) ∧
    (∀ raw, d._raw = some raw → raw ≠ [] →
      ∃ c, d.changes = some c ∧
        (∀ k v, dictLookup (diff_dicts d.content raw).added k = some v →
          dictLookup c.set k = some v) ∧
        (∀ k v old, dictLookup d.content k = some v → dictLookup raw k = some old →
          v ≠ old → (isInt v && isInt old) = false → dictLookup c.set k = some v) ∧
        c.unset = (diff_dicts d.content raw).removed) := by
  refine ⟨?_, ?_, ?_⟩
  · intro h
    unfold Document.changes
    rw [h]
  · intro h
    unfold Document.changes
    rw [h]
    rfl
  · intro raw hraw hne
    have hfalse : raw.isEmpty = false := by
      cases raw with
      | nil => exact absurd rfl hne
      | cons kv rest => rfl
    refine ⟨computeChanges d.content raw, changes_eq d raw hraw hfalse, ?_, ?_, ?_⟩
    · intro k v hadd
      exact computeChanges_set_of_added d.content raw k v hadd
    · intro k v old hc hr hvne hni
      exact computeChanges_set_of_changed_nonint d.content raw k v old hc hr hvne hni
    · exact computeChanges_unset d.content raw

/-- Witness for the amended C1, at the spec's own scenario: content
`{count: 7, flag: true}` against snapshot `{count: 5, tag: "x"}` puts the
added `flag` into `'$set'` and the vanished `tag` into `'$unset'`. -/
theorem C1_changes_mapping_witness :
    ∃ c, Document.changes
        ⟨[("count", .vInt 7), ("flag", .vBool true)],
         some [("count", .vInt 5), ("tag", .vStr "x")], true, none⟩ = some c ∧
      dictLookup c.set "flag" = some (.vBool true) ∧ c.unset = ["tag"] := by
  obtain ⟨-, -, h⟩ := C1_changes_mapping
    ⟨[("count", .vInt 7), ("flag", .vBool true)],
     some [("count", .vInt 5), ("tag", .vStr "x")], true, none⟩
  obtain ⟨c, hc, hadd, -, huns⟩ :=
    h [("count", .vInt 5), ("tag", .vStr "x")] rfl (by decide)
  refine ⟨c, hc, hadd "flag" (.vBool true) (by decide), ?_⟩
  rw [huns]
  decide

/-- Claim C2 is refuted at this input: the field `b` changes from the
integer 0 to the boolean `True`.  A boolean is not an integer in the spec's
vocabulary (its scenarios treat `flag=true` as a distinct value kind), so
the claim requires `b` under `'$set'` with the current value — but Python's
`isinstance(True, int)` holds, so `Document.changes` routes the pair to
`'$inc'` with value 1 and `b` never reaches `'$set'`. -/
theorem C2_counterexample :
    Document.changes ⟨[("b", .vBool true)], some [("b", .vInt 0)], true, none⟩ =
      some ⟨[], [("b", .vInt 1)], []⟩ ∧
    dictLookup (Changes.set ⟨[], [("b", .vInt 1)], []⟩) "b" = none ∧
    dictLookup (Changes.inc ⟨[], [("b", .vInt 1)], []⟩) "b" = some (.vInt 1) := by
  decide

/-- Claim C2 (amended): the integer test is Python's `isinstance(_, int)`,
under which booleans are integers (`True` counting as 1 and `False` as 0).
For a document with a snapshot and a field present on both sides with
differing values: when both values are instances of int the field is
reported under `'$inc'` with the numeric difference and never under
`'$set'`; when either value is not an instance of int the field is reported
under `'$set'` with the current value.  The two halves together cover every
differing pair. -/
theorem C2_increment_detection (d : Document) (raw : Dict) (k : Key)
    (hraw : d._raw = some raw) :
    (∀ v old : Value, dictLookup d.content k = some v →
      dictLookup raw k = some old → v ≠ old → (isInt v && isInt old) = true →
      ∃ c, d.changes = some c ∧
        dictLookup c.inc k = some (.vInt (intVal v - intVal old)) ∧
        dictLookup c.set k = none) ∧
    (∀ v old : Value, dictLookup d.content k = some v →
      dictLookup raw k = some old → v ≠ old → (isInt v && isInt old) = false →
      ∃ c, d.changes = some c ∧ dictLookup c.set k = some v) := by
  constructor
  · intro v old hc hr hne hi
    have hfalse : raw.isEmpty = false := ne_nil_of_dictLookup raw k _ hr
    refine ⟨computeChanges d.content raw, changes_eq d raw hraw hfalse, ?_, ?_⟩
    · exact computeChanges_inc_of_changed_int d.content raw k v old hc hr hne hi
    · exact computeChanges_set_none_of_changed_int d.content raw k v old hc hr hi
  · intro v old hc hr hne hni
    have hfalse : raw.isEmpty = false := ne_nil_of_dictLookup raw k _ hr
    exact ⟨computeChanges d.content raw, changes_eq d raw hraw hfalse,
      computeChanges_set_of_changed_nonint d.content raw k v old hc hr hne hni⟩

/-- Witness for the amended C2, exercising all three regimes on one
document: `count` (int 5 → int 7) is reported as `$inc: 2` and not under
`$set`; `flag` (int 0 → bool True, both instances of int) is reported as
`$inc: 1` and not under `$set`; `tag` (str "x" → int 1) is reported under
`$set`. -/
theorem C2_increment_detection_witness :
    (∃ c, Document.changes
        ⟨[("count", .vInt 7), ("flag", .vBool true), ("tag", .vInt 1)],
         some [("count", .vInt 5), ("flag", .vInt 0), ("tag", .vStr "x")],
         true, none⟩ = some c ∧
      dictLookup c.inc "count" = some (.vInt 2) ∧
      dictLookup c.set "count" = none) ∧
    (∃ c, Document.changes
        ⟨[("count", .vInt 7), ("flag", .vBool true), ("tag", .vInt 1)],
         some [("count", .vInt 5), ("flag", .vInt 0), ("tag", .vStr "x")],
         true, none⟩ = some c ∧
      dictLookup c.inc "flag" = some (.vInt 1) ∧
      dictLookup c.set "flag" = none) ∧
    (∃ c, Document.changes
        ⟨[("count", .vInt 7), ("flag", .vBool true), ("tag", .vInt 1)],
         some [("count", .vInt 5), ("flag", .vInt 0), ("tag", .vStr "x")],
         true, none⟩ = some c ∧
      dictLookup c.set "tag" = some (.vInt 1)) := by
  refine ⟨?_, ?_, ?_⟩
  · obtain ⟨h, -⟩ := C2_increment_detection
      ⟨[("count", .vInt 7), ("flag", .vBool true), ("tag", .vInt 1)],
       some [("count", .vInt 5), ("flag", .vInt 0), ("tag", .vStr "x")],
       true, none⟩
      [("count", .vInt 5), ("flag", .vInt 0), ("tag", .vStr "x")] "count" rfl
    obtain ⟨c, hc, hinc, hset⟩ :=
      h (.vInt 7) (.vInt 5) (by decide) (by decide) (by decide) (by decide)
    refine ⟨c, hc, ?_, hset⟩
    rw [hinc]
    decide
  · obtain ⟨h, -⟩ := C2_increment_detection
      ⟨[("count", .vInt 7), ("flag", .vBool true), ("tag", .vInt 1)],
       some [("count", .vInt 5), ("flag", .vInt 0), ("tag", .vStr "x")],
       true, none⟩
      [("count", .vInt 5), ("flag", .vInt 0), ("tag", .vStr "x")] "flag" rfl
    obtain ⟨c, hc, hinc, hset⟩ :=
      h (.vBool true) (.vInt 0) (by decide) (by decide) (by decide) (by decide)
    refine ⟨c, hc, ?_, hset⟩
    rw [hinc]
    decide
  · obtain ⟨-, h⟩ := C2_increment_detection
      ⟨[("count", .vInt 7), ("flag", .vBool true), ("tag", .vInt 1)],
       some [("count", .vInt 5), ("flag", .vInt 0), ("tag", .vStr "x")],
       true, none⟩
      [("count", .vInt 5), ("flag", .vInt 0), ("tag", .vStr "x")] "tag" rfl
    exact h (.vInt 1) (.vStr "x") (by decide) (by decide) (by decide) (by decide)

/-- Claim C3 is refuted at this input: `update_changes` succeeds and submits
the non-empty change set `{$inc: {count: 1}}`, yet it returns the instance
unchanged — `self._raw` is never refreshed — so an immediately following
computation of `changes` yields the same non-empty change set, not an empty
one. -/
theorem C3_counterexample :
    Document.update_changes (DocClass.defaults [] [] [])
        ⟨[("_id", .vOid 1), ("count", .vInt 2)],
         some [("_id", .vOid 1), ("count", .vInt 1)], true, none⟩ =
      (.ok ⟨[("_id", .vOid 1), ("count", .vInt 2)],
            some [("_id", .vOid 1), ("count", .vInt 1)], true, none⟩,
       [StorageOp.update [("_id", .vOid 1)] ⟨[], [("count", .vInt 1)], []⟩
          [("w", .vInt 1), ("j", .vBool false), ("multi", .vBool false)]]) ∧
    Document.changes
        ⟨[("_id", .vOid 1), ("count", .vInt 2)],
         some [("_id", .vOid 1), ("count", .vInt 1)], true, none⟩ =
      some ⟨[], [("count", .vInt 1)], []⟩ ∧
    Changes.isEmpty ⟨[], [("count", .vInt 1)], []⟩ = false := by
  exact ⟨rfl, rfl, rfl⟩

/-- Claim C3 (amended): a successful `update_changes()` that submitted a
non-empty change set leaves the instance — snapshot included — completely
unchanged, so an immediately following computation of `changes` yields the
same non-empty change set again, not an empty one (the snapshot is *not*
brought up to the current content). -/
theorem C3_update_changes_not_idempotent (cls : DocClass) (d : Document)
    (c : Changes) (filt : Dict) (hc : d.changes = some c)
    (hne : c.isEmpty = false) (hid : d.identifier = some filt) :
    Document.update_changes cls d =
      (.ok d, [StorageOp.update filt c
        (dictSet (cls.getWriteOptions []) "multi" (.vBool false))]) ∧
    Document.changes d = some c := by
  refine ⟨?_, hc⟩
  unfold Document.update_changes
  rw [hc]
  simp only [hne, Bool.not_false, if_true]
  unfold Document.update_self
  rw [hid]

/-- Witness for the amended C3, applying it at the counterexample's input. -/
theorem C3_update_changes_not_idempotent_witness :
    Document.update_changes (DocClass.defaults [] [] [])
        ⟨[("_id", .vOid 2), ("n", .vInt 5)],
         some [("_id", .vOid 2), ("n", .vInt 1)], true, none⟩ =
      (.ok ⟨[("_id", .vOid 2), ("n", .vInt 5)],
            some [("_id", .vOid 2), ("n", .vInt 1)], true, none⟩,
       [StorageOp.update [("_id", .vOid 2)] ⟨[], [("n", .vInt 4)], []⟩
          (dictSet ((DocClass.defaults [] [] []).getWriteOptions [])
            "multi" (.vBool false))]) ∧
    Document.changes
        ⟨[("_id", .vOid 2), ("n", .vInt 5)],
         some [("_id", .vOid 2), ("n", .vInt 1)], true, none⟩ =
      some ⟨[], [("n", .vInt 4)], []⟩ :=
  C3_update_changes_not_idempotent (DocClass.defaults [] [] [])
    ⟨[("_id", .vOid 2), ("n", .vInt 5)],
     some [("_id", .vOid 2), ("n", .vInt 1)], true, none⟩
    ⟨[], [("n", .vInt 4)], []⟩ [("_id", .vOid 2)]
    (by decide) (by decide) (by decide)

/-- Claim C4: whenever `save()` succeeds, the resulting instance carries an
identifier (the freshly generated one when none was set), a previously
missing snapshot has been initialized to a copy of the content as written,
the full current content was submitted as the (single) upsert-style write,
`_in_db` is set, and the identifier used is returned. -/
theorem C4_save (cls : DocClass) (d : Document) (fresh : Nat) (d' : Document)
    (rv : Value) (ops : List StorageOp)
    (h : Document.save cls d fresh = (.ok (d', rv), ops)) :
    (dictHasKey d.content "_id" = false →
      dictLookup d'.content "_id" = some (.vOid fresh)) ∧
    (∃ i, dictLookup d'.content "_id" = some i ∧ rv = i) ∧
    (d._raw = none → d'._raw = some d'.content) ∧
    ops = [StorageOp.save d'.content
      (cls.getWriteOptions [("manipulate", .vBool true)])] ∧
    d'._in_db = true := by
  unfold Document.save at h
  by_cases hval : (cls.validateFlag && !(cls.violations d.content).isEmpty) = true
  · rw [if_pos hval] at h
    simp at h
  · rw [if_neg hval] at h
    by_cases hid : dictHasKey d.content "_id" = true
    · rw [if_pos hid] at h
      simp only [] at h
      cases hr : d._raw with
      | none =>
          rw [hr] at h
          simp only [Prod.mk.injEq, Except.ok.injEq] at h
          obtain ⟨⟨hd, hrv⟩, hops⟩ := h
          subst hd hrv hops
          refine ⟨fun hcontra => absurd hid (by rw [hcontra]; simp), ?_, ?_, rfl, rfl⟩
          · obtain ⟨i, hi⟩ := Option.isSome_iff_exists.mp hid
            exact ⟨i, hi, by rw [hi]; rfl⟩
          · intro _
            rfl
      | some r =>
          rw [hr] at h
          simp only [Prod.mk.injEq, Except.ok.injEq] at h
          obtain ⟨⟨hd, hrv⟩, hops⟩ := h
          subst hd hrv hops
          refine ⟨fun hcontra => absurd hid (by rw [hcontra]; simp), ?_, ?_, rfl, rfl⟩
          · obtain ⟨i, hi⟩ := Option.isSome_iff_exists.mp hid
            exact ⟨i, hi, by rw [hi]; rfl⟩
          · intro hcontra
            exact absurd hcontra (by simp)
    · rw [if_neg hid] at h
      simp only [] at h
      cases hr : d._raw with
      | none =>
          rw [hr] at h
          simp only [Prod.mk.injEq, Except.ok.injEq] at h
          obtain ⟨⟨hd, hrv⟩, hops⟩ := h
          subst hd hrv hops
          refine ⟨fun _ => ?_, ?_, fun _ => rfl, rfl, rfl⟩
          · exact dictLookup_dictSet_self d.content "_id" (.vOid fresh)
          · refine ⟨.vOid fresh, dictLookup_dictSet_self d.content "_id" (.vOid fresh), ?_⟩
            rw [show dictLookup (dictSet d.content "_id" (.vOid fresh)) "_id" =
              some (.vOid fresh) from dictLookup_dictSet_self _ _ _]
            rfl
      | some r =>
          rw [hr] at h
          simp only [Prod.mk.injEq, Except.ok.injEq] at h
          obtain ⟨⟨hd, hrv⟩, hops⟩ := h
          subst hd hrv hops
          refine ⟨fun _ => ?_, ?_, fun hcontra => ?_, rfl, rfl⟩
          · exact dictLookup_dictSet_self d.content "_id" (.vOid fresh)
          · refine ⟨.vOid fresh, dictLookup_dictSet_self d.content "_id" (.vOid fresh), ?_⟩
            rw [show dictLookup (dictSet d.content "_id" (.vOid fresh)) "_id" =
              some (.vOid fresh) from dictLookup_dictSet_self _ _ _]
            rfl
          · exact absurd hcontra (by simp)

/-- Witness for C4: saving a fresh detached document generates `_id`,
captures the snapshot from the content as written, and submits the full
content. -/
theorem C4_save_witness :
    (dictHasKey [("a", Value.vInt 1)] "_id" = false →
      dictLookup [("a", Value.vInt 1), ("_id", Value.vOid 42)] "_id" =
        some (.vOid 42)) ∧
    (∃ i, dictLookup [("a", Value.vInt 1), ("_id", Value.vOid 42)] "_id" =
      some i ∧ Value.vOid 42 = i) ∧
    ((none : Option Dict) = none →
      (some [("a", Value.vInt 1), ("_id", Value.vOid 42)] : Option Dict) =
        some [("a", Value.vInt 1), ("_id", Value.vOid 42)]) ∧
    [StorageOp.save [("a", Value.vInt 1), ("_id", Value.vOid 42)]
        ((DocClass.defaults [] [] []).getWriteOptions [("manipulate", .vBool true)])] =
      [StorageOp.save [("a", Value.vInt 1), ("_id", Value.vOid 42)]
        ((DocClass.defaults [] [] []).getWriteOptions [("manipulate", .vBool true)])] ∧
    true = true := by
  have h := C4_save (DocClass.defaults [] [] [])
    ⟨[("a", .vInt 1)], none, false, none⟩ 42
    ⟨[("a", .vInt 1), ("_id", .vOid 42)],
     some [("a", .vInt 1), ("_id", .vOid 42)], true, none⟩
    (.vOid 42)
    [StorageOp.save [("a", .vInt 1), ("_id", .vOid 42)]
      ((DocClass.defaults [] [] []).getWriteOptions [("manipulate", .vBool true)])]
    rfl
  exact h

/-- Claim C5: with validation enabled and failing content, `save()` raises
the structural error naming the offending fields and submits nothing; in
this pure embedding the error return carries no new instance, so no
identifier, snapshot or `_in_db` mutation survives — the save is aborted
atomically. -/
theorem C5_validation_aborts (cls : DocClass) (d : Document) (fresh : Nat)
    (hv : cls.validateFlag = true)
    (hfail : (cls.violations d.content).isEmpty = false) :
    Document.save cls d fresh =
      (.error (.structError (cls.violations d.content)), []) := by
  unfold Document.save
  rw [if_pos (by rw [hv, hfail]; rfl)]

/-- Witness for C5: a schema requiring `name` rejects a document without it,
and nothing is submitted to storage. -/
theorem C5_validation_aborts_witness :
    Document.save (DocClass.defaults [("name", .one .tStr)] ["name"] [])
        ⟨[("a", .vInt 1)], none, false, none⟩ 42 =
      (.error (.structError
        ((DocClass.defaults [("name", .one .tStr)] ["name"] []).violations
          [("a", .vInt 1)])), []) :=
  C5_validation_aborts (DocClass.defaults [("name", .one .tStr)] ["name"] [])
    ⟨[("a", .vInt 1)], none, false, none⟩ 42 (by decide) (by decide)

/-- Claim C6 is refuted at this input: at loaded construction
(`Document(raw, from_db=True)`) the snapshot assignment is `self._raw = raw`
— the received dict object itself, not a deep, independent copy of it — so
mutating that object in place afterwards changes what the snapshot reads.
(The deep copy at that site goes to the live *content*, not to the
snapshot.) -/
theorem C6_counterexample :
    (hInitLoaded (heapWrite (fun _ => []) 0 [("a", .vInt 1)]) 0 1).2.rawRef = some 0 ∧
    hSnapshot (hInitLoaded (heapWrite (fun _ => []) 0 [("a", .vInt 1)]) 0 1).1
        (hInitLoaded (heapWrite (fun _ => []) 0 [("a", .vInt 1)]) 0 1).2 =
      some [("a", .vInt 1)] ∧
    hSnapshot
        (heapWrite (hInitLoaded (heapWrite (fun _ => []) 0 [("a", .vInt 1)]) 0 1).1
          0 [("a", .vInt 99)])
        (hInitLoaded (heapWrite (fun _ => []) 0 [("a", .vInt 1)]) 0 1).2 =
      some [("a", .vInt 99)] :=
  ⟨rfl, rfl, rfl⟩

/-- Claim C6 (amended): the snapshot is never aliased with the live field
content, so in-place mutation of the live fields cannot alter the comparison
baseline; the first-save snapshot assignment is an independent copy of the
current content; but at loaded construction the snapshot assignment binds the
received mapping itself (only the live content is a fresh copy of it). -/
theorem C6_snapshot_aliasing (h : Heap) (r fresh : Ref) (dd : Dict)
    (h2 : Heap) (d : HDocument) (fresh2 : Ref) (dd2 : Dict)
    (hne : fresh ≠ r) (hraw : d.rawRef = none) (hne2 : fresh2 ≠ d.contentRef) :
    ((hInitLoaded h r fresh).2.rawRef = some r ∧
     (hInitLoaded h r fresh).2.contentRef ≠ r ∧
     hContent (hInitLoaded h r fresh).1 (hInitLoaded h r fresh).2 = h r ∧
     hSnapshot (heapWrite (hInitLoaded h r fresh).1
         (hInitLoaded h r fresh).2.contentRef dd) (hInitLoaded h r fresh).2 =
       hSnapshot (hInitLoaded h r fresh).1 (hInitLoaded h r fresh).2) ∧
    ((hSnapshotCapture h2 d fresh2).2.rawRef = some fresh2 ∧
     (hSnapshotCapture h2 d fresh2).2.contentRef = d.contentRef ∧
     hSnapshot (hSnapshotCapture h2 d fresh2).1 (hSnapshotCapture h2 d fresh2).2 =
       some (hContent h2 d) ∧
     hSnapshot (heapWrite (hSnapshotCapture h2 d fresh2).1
         (hSnapshotCapture h2 d fresh2).2.contentRef dd2)
         (hSnapshotCapture h2 d fresh2).2 =
       hSnapshot (hSnapshotCapture h2 d fresh2).1 (hSnapshotCapture h2 d fresh2).2) := by
  constructor
  · refine ⟨rfl, hne, ?_, ?_⟩
    · show (if fresh = fresh then h r else h fresh) = h r
      rw [if_pos rfl]
    · show some (if r = fresh then dd else heapWrite h fresh (h r) r) =
        some (heapWrite h fresh (h r) r)
      rw [if_neg fun hc => hne hc.symm]
  · obtain ⟨cr, rr, db⟩ := d
    subst hraw
    refine ⟨rfl, rfl, ?_, ?_⟩
    · show some (if fresh2 = fresh2 then h2 cr else h2 fresh2) = some (h2 cr)
      rw [if_pos rfl]
    · show some (if fresh2 = cr then dd2 else heapWrite h2 fresh2 (h2 cr) fresh2) =
        some (heapWrite h2 fresh2 (h2 cr) fresh2)
      rw [if_neg hne2]

/-- Witness for the amended C6 at a two-object heap. -/
theorem C6_snapshot_aliasing_witness :
    ((hInitLoaded (heapWrite (fun _ => []) 0 [("a", .vInt 1)]) 0 1).2.rawRef = some 0 ∧
     (hInitLoaded (heapWrite (fun _ => []) 0 [("a", .vInt 1)]) 0 1).2.contentRef ≠ 0 ∧
     hContent (hInitLoaded (heapWrite (fun _ => []) 0 [("a", .vInt 1)]) 0 1).1
         (hInitLoaded (heapWrite (fun _ => []) 0 [("a", .vInt 1)]) 0 1).2 =
       heapWrite (fun _ => []) 0 [("a", .vInt 1)] 0 ∧
     hSnapshot
         (heapWrite (hInitLoaded (heapWrite (fun _ => []) 0 [("a", .vInt 1)]) 0 1).1
           (hInitLoaded (heapWrite (fun _ => []) 0 [("a", .vInt 1)]) 0 1).2.contentRef
           [("b", .vInt 2)])
         (hInitLoaded (heapWrite (fun _ => []) 0 [("a", .vInt 1)]) 0 1).2 =
       hSnapshot (hInitLoaded (heapWrite (fun _ => []) 0 [("a", .vInt 1)]) 0 1).1
         (hInitLoaded (heapWrite (fun _ => []) 0 [("a", .vInt 1)]) 0 1).2) ∧
    ((hSnapshotCapture (fun _ => [("c", .vInt 3)]) ⟨0, none, false⟩ 1).2.rawRef = some 1 ∧
     (hSnapshotCapture (fun _ => [("c", .vInt 3)]) ⟨0, none, false⟩ 1).2.contentRef = 0 ∧
     hSnapshot (hSnapshotCapture (fun _ => [("c", .vInt 3)]) ⟨0, none, false⟩ 1).1
         (hSnapshotCapture (fun _ => [("c", .vInt 3)]) ⟨0, none, false⟩ 1).2 =
       some (hContent (fun _ => [("c", .vInt 3)]) ⟨0, none, false⟩) ∧
     hSnapshot
         (heapWrite (hSnapshotCapture (fun _ => [("c", .vInt 3)]) ⟨0, none, false⟩ 1).1
           (hSnapshotCapture (fun _ => [("c", .vInt 3)]) ⟨0, none, false⟩ 1).2.contentRef
           [("d", .vInt 4)])
         (hSnapshotCapture (fun _ => [("c", .vInt 3)]) ⟨0, none, false⟩ 1).2 =
       hSnapshot (hSnapshotCapture (fun _ => [("c", .vInt 3)]) ⟨0, none, false⟩ 1).1
         (hSnapshotCapture (fun _ => [("c", .vInt 3)]) ⟨0, none, false⟩ 1).2) :=
  C6_snapshot_aliasing (heapWrite (fun _ => []) 0 [("a", .vInt 1)]) 0 1 [("b", .vInt 2)]
    (fun _ => [("c", .vInt 3)]) ⟨0, none, false⟩ 1 [("d", .vInt 4)]
    (by decide) rfl (by decide)

/-- Claim C7: `remove()` on an instance not known to be in the database
raises the assertion error and submits nothing; on a persisted instance with
an identifier it submits the delete by `_id` and then clears the content and
resets `_in_db`. -/
theorem C7_remove (cls : DocClass) (d : Document) :
    (d._in_db = false →
      Document.remove cls d =
        (.error (.assertionError "Could not remove document which is not in database"),
         [])) ∧
    (∀ i, d._in_db = true → dictLookup d.content "_id" = some i →
      ∃ d', Document.remove cls d =
          (.ok d', [StorageOp.remove i (cls.getWriteOptions [])]) ∧
        d'.content = [] ∧ d'._in_db = false) := by
  constructor
  · intro hdb
    unfold Document.remove
    rw [hdb]
    rfl
  · intro i hdb hid
    obtain ⟨content, raw0, indb, hist⟩ := d
    simp only at hdb hid
    subst hdb
    refine ⟨⟨[], raw0, false, some content⟩, ?_, rfl, rfl⟩
    unfold Document.remove
    simp [hid]

/-- Witness for C7: the precondition failure and the successful delete, each
at a concrete instance. -/
theorem C7_remove_witness :
    Document.remove (DocClass.defaults [] [] [])
        ⟨[("_id", .vOid 3)], none, false, none⟩ =
      (.error (.assertionError "Could not remove document which is not in database"),
       []) ∧
    (∃ d', Document.remove (DocClass.defaults [] [] [])
        ⟨[("_id", .vOid 3), ("x", .vInt 1)], some [("_id", .vOid 3)], true, none⟩ =
        (.ok d',
         [StorageOp.remove (.vOid 3) ((DocClass.defaults [] [] []).getWriteOptions [])]) ∧
      d'.content = [] ∧ d'._in_db = false) :=
  ⟨(C7_remove (DocClass.defaults [] [] [])
      ⟨[("_id", .vOid 3)], none, false, none⟩).1 rfl,
   (C7_remove (DocClass.defaults [] [] [])
      ⟨[("_id", .vOid 3), ("x", .vInt 1)], some [("_id", .vOid 3)], true, none⟩).2
     (.vOid 3) rfl rfl⟩

/-- Claim C8: `pull()` consults storage with this document's identifier
filter; when the record is gone it raises the dedicated
`SimplemongoException` — a condition distinct from the generic
`ObjectNotFound` — and on success it replaces the content in place with the
freshly read record, leaving the snapshot and the `_in_db` flag untouched. -/
theorem C8_pull (queryOne : Dict → Option Dict) (d : Document) (filt : Dict)
    (hid : d.identifier = some filt) :
    (queryOne filt = none →
      Document.pull queryOne d =
        .error (.simplemongoException "Document was deleted before `pull` was called") ∧
      ∀ s, Err.simplemongoException "Document was deleted before `pull` was called" ≠
        Err.objectNotFound s) ∧
    (∀ doc, queryOne filt = some doc →
      ∃ d', Document.pull queryOne d = .ok d' ∧ d'.content = doc ∧
        d'._raw = d._raw ∧ d'._in_db = d._in_db) := by
  constructor
  · intro hnone
    constructor
    · unfold Document.pull
      rw [hid]
      simp [hnone]
    · intro s hcontra
      cases hcontra
  · intro doc hdoc
    refine ⟨{ d with content := doc }, ?_, rfl, rfl, rfl⟩
    unfold Document.pull
    rw [hid]
    simp [hdoc]

/-- Witness for C8: the vanished-record failure and the refreshing success,
each at a concrete instance and storage answer. -/
theorem C8_pull_witness :
    (Document.pull (fun _ => none)
        ⟨[("_id", .vOid 5)], some [("_id", .vOid 5)], true, none⟩ =
      .error (.simplemongoException "Document was deleted before `pull` was called")) ∧
    (∃ d', Document.pull (fun _ => some [("_id", .vOid 5), ("y", .vInt 2)])
        ⟨[("_id", .vOid 5)], some [("_id", .vOid 5)], true, none⟩ = .ok d' ∧
      d'.content = [("_id", .vOid 5), ("y", .vInt 2)] ∧
      d'._raw = some [("_id", .vOid 5)] ∧ d'._in_db = true) :=
  ⟨((C8_pull (fun _ => none)
      ⟨[("_id", .vOid 5)], some [("_id", .vOid 5)], true, none⟩
      [("_id", .vOid 5)] rfl).1 rfl).1,
   (C8_pull (fun _ => some [("_id", .vOid 5), ("y", .vInt 2)])
      ⟨[("_id", .vOid 5)], some [("_id", .vOid 5)], true, none⟩
      [("_id", .vOid 5)] rfl).2 [("_id", .vOid 5), ("y", .vInt 2)] rfl⟩

/-- Claim C9 is refuted at this input: `Document.new` only generates an
identifier when the keyword arguments carry none (`if '_id' not in kwargs:`),
so with `_id` supplied the created instance keeps the caller's identifier and
the fresh one (here `ObjectId` tag 99) is *not* assigned — the assignment is
conditional, not unconditional. -/
theorem C9_counterexample :
    dictLookup (Document.new [("_id", .vOid 7)] 99).content "_id" = some (.vOid 7) ∧
    some (Value.vOid 7) ≠ some (Value.vOid 99) := by
  decide

/-- Claim C9 (amended): `Document.new` generates and assigns a fresh
identifier exactly when the caller did not supply one, and keeps a supplied
one; in every case the created instance carries an identifier, is not in the
database, and has no snapshot. -/
theorem C9_new (kwargs : Dict) (fresh : Nat) :
    (dictHasKey kwargs "_id" = false →
      dictLookup (Document.new kwargs fresh).content "_id" = some (.vOid fresh)) ∧
    (∀ v, dictLookup kwargs "_id" = some v →
      dictLookup (Document.new kwargs fresh).content "_id" = some v) ∧
    dictHasKey (Document.new kwargs fresh).content "_id" = true ∧
    (Document.new kwargs fresh)._in_db = false ∧
    (Document.new kwargs fresh)._raw = none := by
  refine ⟨?_, ?_, ?_, rfl, rfl⟩
  · intro hk'
    show dictLookup (if dictHasKey kwargs "_id" then kwargs
      else dictSet kwargs "_id" (.vOid fresh)) "_id" = some (.vOid fresh)
    rw [hk', if_neg (by simp)]
    exact dictLookup_dictSet_self _ _ _
  · intro v hv
    have hk : dictHasKey kwargs "_id" = true := by
      rw [dictHasKey, hv]
      rfl
    show dictLookup (if dictHasKey kwargs "_id" then kwargs
      else dictSet kwargs "_id" (.vOid fresh)) "_id" = some v
    rw [hk, if_pos rfl]
    exact hv
  · show dictHasKey (if dictHasKey kwargs "_id" then kwargs
      else dictSet kwargs "_id" (.vOid fresh)) "_id" = true
    by_cases hk : dictHasKey kwargs "_id" = true
    · rw [hk, if_pos rfl]
      exact hk
    · have hk' : dictHasKey kwargs "_id" = false := by
        cases hx : dictHasKey kwargs "_id" with
        | false => rfl
        | true => exact absurd hx hk
      rw [hk', if_neg (by simp), dictHasKey, dictLookup_dictSet_self]
      rfl

/-- Witness for the amended C9: without a supplied `_id` the fresh identifier
is assigned, and the instance is detached with no snapshot. -/
theorem C9_new_witness :
    (dictHasKey [("a", Value.vInt 1)] "_id" = false →
      dictLookup (Document.new [("a", .vInt 1)] 5).content "_id" =
        some (.vOid 5)) ∧
    (∀ v, dictLookup [("a", Value.vInt 1)] "_id" = some v →
      dictLookup (Document.new [("a", .vInt 1)] 5).content "_id" = some v) ∧
    dictHasKey (Document.new [("a", .vInt 1)] 5).content "_id" = true ∧
    (Document.new [("a", .vInt 1)] 5)._in_db = false ∧
    (Document.new [("a", .vInt 1)] 5)._raw = none :=
  C9_new [("a", .vInt 1)] 5

/-- Claim C10: `remove()` clears the content but leaves `self._raw` alone;
a later `save()` of the reused instance sees a non-`None` snapshot and does
not re-capture it, so a subsequent `changes` computation diffs the new
content against the stale pre-remove snapshot. -/
theorem C10_stale_snapshot (cls : DocClass) (d : Document) (i : Value)
    (raw : Dict) (fresh : Nat) (hdb : d._in_db = true)
    (hid : dictLookup d.content "_id" = some i) (hraw : d._raw = some raw)
    (hv : (cls.validateFlag && !(cls.violations ([] : Dict)).isEmpty) = false) :
    ∃ d' ops, Document.remove cls d = (.ok d', ops) ∧ d'._raw = some raw ∧
      ∃ d'' rv ops', Document.save cls d' fresh = (.ok (d'', rv), ops') ∧
        d''._raw = some raw ∧
        (raw.isEmpty = false →
          d''.changes = some (computeChanges d''.content raw)) := by
  obtain ⟨content, raw0, indb, hist⟩ := d
  subst hdb hraw
  refine ⟨⟨[], some raw, false, some content⟩,
    [StorageOp.remove i (cls.getWriteOptions [])], ?_, rfl, ?_⟩
  · unfold Document.remove
    simp [hid]
  · refine ⟨⟨dictSet [] "_id" (.vOid fresh), some raw, true, some content⟩,
      (dictLookup (dictSet [] "_id" (.vOid fresh)) "_id").getD .vNull,
      [StorageOp.save (dictSet [] "_id" (.vOid fresh))
        (cls.getWriteOptions [("manipulate", .vBool true)])], ?_, rfl, ?_⟩
    · unfold Document.save
      rw [if_neg (by simp [hv])]
      rfl
    · intro hne
      exact changes_eq ⟨dictSet [] "_id" (.vOid fresh), some raw, true, some content⟩
        raw rfl hne

/-- Witness for C10: a loaded document is removed and saved again; the
snapshot still holds the pre-remove baseline `{n: 1}`, so the next `changes`
diffs the fresh content against it. -/
theorem C10_stale_snapshot_witness :
    ∃ d' ops, Document.remove (DocClass.defaults [] [] [])
        ⟨[("_id", .vOid 9), ("n", .vInt 3)], some [("n", .vInt 1)], true, none⟩ =
      (.ok d', ops) ∧ d'._raw = some [("n", .vInt 1)] ∧
      ∃ d'' rv ops', Document.save (DocClass.defaults [] [] []) d' 77 =
          (.ok (d'', rv), ops') ∧
        d''._raw = some [("n", .vInt 1)] ∧
        (([("n", Value.vInt 1)] : Dict).isEmpty = false →
          d''.changes = some (computeChanges d''.content [("n", .vInt 1)])) :=
  C10_stale_snapshot (DocClass.defaults [] [] [])
    ⟨[("_id", .vOid 9), ("n", .vInt 3)], some [("n", .vInt 1)], true, none⟩
    (.vOid 9) [("n", .vInt 1)] 77 rfl rfl rfl (by decide)

end Simplemongo
